import Mathlib

/-!
Verification of the document ingestion / retrieval engine and the multi-level
similarity analyzer of the research-assistant repository.

Modelling conventions:
* filesystem paths are lists of path components relative to `BASE_DIR`;
* machine floats are rationals (all float operations the claims touch are
  comparisons, sums, products and divisions, which ℚ models exactly);
* the external embedding model (`SentenceTransformer.encode`) and the external
  similarity kernel (`sklearn cosine_similarity` on two vectors) are black-box
  function parameters, exactly as the spec treats them;
* a raised Python exception is an `Except.error`.
-/

namespace Capstone

/-- A filesystem path as its list of components below `BASE_DIR` (config.py). -/
abbrev FsPath := List String

/-- config.py: `UPLOAD_DIR = BASE_DIR / "uploads"`. -/
def uploadDir : FsPath := ["uploads"]

/-- config.py: `VECTOR_DB_DIR = BASE_DIR / "vector_db"`. -/
def vectorDbDir : FsPath := ["vector_db"]

/-- Python `str.strip()` as the code uses it (truthiness of the stripped
string): remove leading and trailing whitespace.  Implemented over the
character list so concrete instances evaluate inside the kernel. -/
def pyStrip (s : String) : String :=
  ((s.data.dropWhile Char.isWhitespace).reverse.dropWhile Char.isWhitespace).reverse.asString

/-- `p` lies inside directory `d`: `d` is an initial segment of `p`. -/
def dirWithin (d p : FsPath) : Prop := ∃ t, p = d ++ t

/-- utils/user_data.py `get_user_upload_dir`: an authenticated user id `some u`
resolves `UPLOAD_DIR / f"user_{user_id}"`; `none` (no authenticated user) falls
back to the shared `UPLOAD_DIR`. -/
def get_user_upload_dir : Option Nat → FsPath
  | none => uploadDir
  | some u => uploadDir ++ ["user_" ++ Nat.repr u]

/-- utils/user_data.py `get_user_vector_db_dir`: same pattern for the vector
database directory. -/
def get_user_vector_db_dir : Option Nat → FsPath
  | none => vectorDbDir
  | some u => vectorDbDir ++ ["user_" ++ Nat.repr u]

/-- utils/document_handler.py `load_vector_store`: the index artifact is read
from `VECTOR_DB_DIR / f"{file_name}.faiss"` — the shared global directory; the
function takes no user context at all. -/
def vector_store_index_path (file_name : String) : FsPath :=
  vectorDbDir ++ [file_name ++ ".faiss"]

/-- utils/document_handler.py `load_vector_store`: chunks are reconstructed by
re-reading `UPLOAD_DIR / file_name`, again the shared global directory. -/
def vector_store_document_path (file_name : String) : FsPath :=
  uploadDir ++ [file_name]

/-- One embedding vector (a row of `embedder.encode(texts).tolist()`). -/
abbrev Vec := List ℚ

/-- The black-box underlying embedding model (`embedder.encode` in
utils/llm.py); `Except.error` models the call raising an exception. -/
abbrev Encoder := List String → Except Unit (List Vec)

/-- utils/llm.py `get_embeddings`: a single string is promoted to a one-element
batch, then the underlying model is called directly on the input.  There is no
filtering of degenerate entries and no try/except: a model failure propagates
to the caller unchanged. -/
def get_embeddings (encode : Encoder) : String ⊕ List String → Except Unit (List Vec)
  | Sum.inl s => encode [s]
  | Sum.inr l => encode l

/-- Modelled from the spec: the Embedding Gateway as spec section 4.3 describes
it — filters out empty/whitespace-only entries, returns an empty result without
invoking the model when the filtered input is empty, and returns an empty
result (rather than raising) when the underlying model fails.  Present only to
compare the spec's description against `get_embeddings`. -/
def embed_gateway_spec (encode : Encoder) (texts : List String) : List Vec :=
  let filtered := texts.filter (fun t => !(pyStrip t == ""))
  if filtered = [] then []
  else
    match encode filtered with
    | Except.ok vs => vs
    | Except.error _ => []

/-- The FAISS artifact `create_vector_store` writes: its on-disk path, the
dimensionality `d = len(embeddings[0])`, and the stored vectors. -/
structure IndexArtifact where
  path : FsPath
  dim : Nat
  vectors : List Vec
deriving DecidableEq

/-- utils/document_handler.py `create_vector_store`, the chunk filter:
`[c for c in chunks if c and c.strip()]`. -/
def filtered_chunks (chunks : List String) : List String :=
  chunks.filter (fun c => !(c == "") && !(pyStrip c == ""))

/-- utils/document_handler.py `create_vector_store`: filters degenerate chunks,
returns without writing when nothing is left to embed or when the embedding
call returns no vectors, otherwise writes `VECTOR_DB_DIR/{file_name}.faiss`.
`Except.ok none` means "returned normally and wrote no artifact"; the
`Except.error` case is an exception propagating out of the unguarded embedding
call. -/
def create_vector_store (encode : Encoder) (chunks : List String)
    (file_name : String) : Except Unit (Option IndexArtifact) :=
  let fc := filtered_chunks chunks
  if fc = [] then Except.ok none
  else
    match get_embeddings encode (Sum.inr fc) with
    | Except.error e => Except.error e
    | Except.ok embs =>
      if embs = [] then Except.ok none
      else
        Except.ok (some { path := vectorDbDir ++ [file_name ++ ".faiss"],
                          dim := embs.headI.length,
                          vectors := embs })

/-- Document metadata (a Python dict of strings). -/
abbrev Metadata := List (String × String)

/-- The external-reader outcomes `load_document` consumes for one file: the
lowercased extension, the filename stem, and the result of each library call
(`Except.error` = that call raised).  `fitzDoc` is the PyMuPDF text+metadata
fallback open used when pdfplumber produced no text; `fitzMeta` is the separate
metadata-only PyMuPDF open used when pdfplumber did produce text. -/
structure RawFile where
  ext : String
  stem : String
  pdfplumberText : Except Unit String
  fitzDoc : Except Unit (String × Metadata)
  fitzMeta : Except Unit Metadata
  ocrText : Except Unit String
  docxParas : Except Unit (List String)
  rawText : Except Unit String

/-- Metadata of a best-effort PyMuPDF open: empty dict when the open raised. -/
def metaOrEmpty : Except Unit Metadata → Metadata
  | Except.ok m => m
  | Except.error _ => []

/-- utils/document_handler.py `load_document`.  PDF: pdfplumber text first
(raising propagates to the outer `except`, which re-raises
`ValueError("Unsupported or corrupted file.")`); if that text is
empty/whitespace, the PyMuPDF fallback (its own failure is swallowed, leaving
empty text and metadata); if still empty/whitespace, OCR (its failure is
swallowed, and its text is used only when non-whitespace).  DOCX and txt/tex
branches raise the same `ValueError` when their reader raises.  An extension
matching no branch returns `("", {})` — there is no else branch. -/
def load_document (f : RawFile) : Except String (String × Metadata) :=
  if f.ext = ".pdf" then
    match f.pdfplumberText with
    | Except.error _ => Except.error "Unsupported or corrupted file."
    | Except.ok t0 =>
      if pyStrip t0 = "" then
        let tm :=
          match f.fitzDoc with
          | Except.ok p => p
          | Except.error _ => ("", [])
        if pyStrip tm.1 = "" then
          match f.ocrText with
          | Except.ok o => if ¬(pyStrip o = "") then Except.ok (o, tm.2) else Except.ok tm
          | Except.error _ => Except.ok tm
        else Except.ok tm
      else Except.ok (t0, metaOrEmpty f.fitzMeta)
  else if f.ext = ".docx" then
    match f.docxParas with
    | Except.ok ps =>
      Except.ok (String.intercalate "\n" ps, [("title", f.stem), ("authors", "Unknown")])
    | Except.error _ => Except.error "Unsupported or corrupted file."
  else if f.ext = ".txt" ∨ f.ext = ".tex" then
    match f.rawText with
    | Except.ok t => Except.ok (t, [("title", f.stem), ("authors", "Unknown")])
    | Except.error _ => Except.error "Unsupported or corrupted file."
  else Except.ok ("", [])

/-- modules/upload_pdf.py `main`, processing section.  The `ValueError` raised
by `load_document` is caught (`except ValueError`) and rendered as an error
message, so the error path returns normally.  When `load_document` returns,
however, the handler goes on to call
`create_vector_store(chunks, name, store_dir=user_vdb_dir)` — but
`create_vector_store` accepts no `store_dir` parameter, so that call raises a
`TypeError`, which the `except ValueError` clause does not catch:
the success path crashes (`Except.error ()`) before any success message. -/
def process_upload (f : RawFile) : Except Unit String :=
  match load_document f with
  | Except.ok _ => Except.error ()
  | Except.error e => Except.ok ("Error: " ++ e)

/-- modules/plagiarism_check.py `sentence_level_analysis`, the severity ladder:
every comparison is strict (`>`).  Returns (severity, display color). -/
def severity_ladder (max_sim threshold : ℚ) : String × String :=
  if max_sim > 9/10 then ("Critical", "error")
  else if max_sim > 8/10 then ("High", "warning")
  else if max_sim > threshold then ("Medium", "info")
  else ("Low", "success")

/-- The severity component of the ladder. -/
def severity_label (max_sim threshold : ℚ) : String :=
  (severity_ladder max_sim threshold).1

/-- numpy `np.max` of a float vector (0 on the empty list, which the call sites
never pass). -/
def npMax : List ℚ → ℚ
  | [] => 0
  | x :: xs => xs.foldl max x

/-- numpy `np.argmax`: the index of the first occurrence of the maximum. -/
def npArgmax (l : List ℚ) : Nat := l.indexOf (npMax l)

/-- One entry of the `results` list built by `sentence_level_analysis`. -/
structure SentenceMatch where
  checked_sent : String
  original_sent : String
  similarity : ℚ
  is_plagiarized : Bool
  severity : String
  color : String
deriving DecidableEq

/-- Placeholder used as the `getD` default when stating theorems. -/
def noMatch : SentenceMatch := ⟨"", "", 0, false, "", ""⟩

/-- modules/plagiarism_check.py `sentence_level_analysis`, modelled from the
point where the two sentence lists produced by `split_into_sentences` are in
hand.  `encode` is the black-box model behind `get_embeddings`; `sim` is the
external `cosine_similarity` kernel applied to one checked embedding and one
original embedding.  Mirrors the early returns on empty sentence lists and
empty embeddings, the per-checked-sentence max/argmax best match, the severity
ladder, and the catch-all `except` yielding `([], 0.0)` when the embedding
call raises. -/
def sentence_level_analysis (encode : Encoder) (sim : Vec → Vec → ℚ)
    (origSents checkSents : List String) (threshold : ℚ) :
    List SentenceMatch × ℚ :=
  if origSents = [] ∨ checkSents = [] then ([], 0)
  else
    match get_embeddings encode (Sum.inr origSents),
          get_embeddings encode (Sum.inr checkSents) with
    | Except.ok origEmbs, Except.ok checkEmbs =>
      if origEmbs = [] ∨ checkEmbs = [] then ([], 0)
      else
        let results := (List.range checkEmbs.length).map (fun i =>
          let sims := origEmbs.map (sim (checkEmbs.getD i []))
          { checked_sent := checkSents.getD i ""
            original_sent := origSents.getD (npArgmax sims) ""
            similarity := npMax sims
            is_plagiarized := decide (npMax sims > threshold)
            severity := (severity_ladder (npMax sims) threshold).1
            color := (severity_ladder (npMax sims) threshold).2 })
        (results, (results.map SentenceMatch.similarity).sum / (results.length : ℚ))
    | _, _ => ([], 0)

/-- The results list of `sentence_level_analysis`. -/
def sla_results (encode : Encoder) (sim : Vec → Vec → ℚ)
    (origSents checkSents : List String) (threshold : ℚ) : List SentenceMatch :=
  (sentence_level_analysis encode sim origSents checkSents threshold).1

/-- modules/plagiarism_check.py `calculate_similarity`: embeds each text as a
one-element batch, returns 0.0 when either embedding list is empty, and the
surrounding try/except turns any raised exception into 0.0 as well. -/
def calculate_similarity (encode : Encoder) (sim : Vec → Vec → ℚ)
    (t1 t2 : String) : ℚ :=
  match get_embeddings encode (Sum.inr [t1]), get_embeddings encode (Sum.inr [t2]) with
  | Except.ok e1, Except.ok e2 =>
    if e1 = [] ∨ e2 = [] then 0 else sim e1.headI e2.headI
  | _, _ => 0

/-- One retrieved context chunk in modules/ask_paper.py: the chunk text, its
source document, and the score FAISS reported. -/
structure Hit where
  text : String
  file : String
  score : ℚ
deriving DecidableEq

/-- Squared L2 distance — the score `faiss.IndexFlatL2.search` returns
(squaring preserves the ascending distance order). -/
def sqDist (x y : Vec) : ℚ :=
  ((x.zip y).map (fun p => (p.1 - p.2) * (p.1 - p.2))).sum

/-- Ascending-score order on (distance, label) pairs; FAISS labels are 64-bit
signed integers (the padding label is -1), modelled as ℤ. -/
def pairLe (a b : ℚ × Int) : Prop := a.1 ≤ b.1

instance : DecidableRel pairLe := fun a b => inferInstanceAs (Decidable (a.1 ≤ b.1))

instance : IsTotal (ℚ × Int) pairLe := ⟨fun a b => le_total a.1 b.1⟩

instance : IsTrans (ℚ × Int) pairLe := ⟨fun _ _ _ h1 h2 => le_trans h1 h2⟩

/-- Ascending-score order on hits — the key of
`all_relevant.sort(key=lambda x: x['score'])`. -/
def hitLe (a b : Hit) : Prop := a.score ≤ b.score

instance : DecidableRel hitLe := fun a b => inferInstanceAs (Decidable (a.score ≤ b.score))

instance : IsTotal Hit hitLe := ⟨fun a b => le_total a.score b.score⟩

instance : IsTrans Hit hitLe := ⟨fun _ _ _ h1 h2 => le_trans h1 h2⟩

/-- The distance FAISS reports for padding slots when `k` exceeds the number
of stored vectors: `FLT_MAX`, the largest finite 32-bit float. -/
def faissPadDist : ℚ := 2^128 - 2^104

/-- Python list indexing `chunks[i]`: a negative index counts from the end
(`chunks[-1]` is the last chunk). -/
def pyGet (chunks : List String) (i : Int) : String :=
  if i < 0 then chunks.getD (chunks.length - (-i).toNat) ""
  else chunks.getD i.toNat ""

/-- Exact k-nearest-neighbour search of `faiss.IndexFlatL2`: every stored
vector paired with its squared distance to the query and its position,
ascending by distance, first `k`; when `k` exceeds the number of stored
vectors, FAISS pads the remaining result slots with label `-1` at distance
`FLT_MAX`. -/
def index_search (vecs : List Vec) (q : Vec) (k : Nat) : List (ℚ × Int) :=
  (List.insertionSort pairLe
    (vecs.enum.map (fun p => (sqDist q p.2, (p.1 : Int))))).take k
    ++ List.replicate (k - vecs.length) (faissPadDist, -1)

/-- One selected document in the ask-paper loop: its filename and the outcome
of `load_vector_store` for it — `.ok (index vectors, reloaded chunks)`, or
`.error` when the index artifact is missing/corrupt and the load raised. -/
abbrev TargetDoc := String × Except Unit (List Vec × List String)

/-- Did `load_vector_store` succeed for this document? -/
def loadOk (d : TargetDoc) : Bool :=
  match d.2 with
  | Except.ok _ => true
  | Except.error _ => false

/-- The hits one successfully loaded document contributes: its top-k search
results, guarded by `idx < len(chunks)` as in the code — a guard the padding
label `-1` passes, whereupon `chunks[idx]` indexes from the end — tagged with
chunk text and filename.  A document whose load raised contributes nothing
(the exception is caught, a warning is shown, and the loop continues). -/
def doc_hits (q : Vec) (k : Nat) (d : TargetDoc) : List Hit :=
  match d.2 with
  | Except.error _ => []
  | Except.ok (vecs, chunks) =>
    ((index_search vecs q k).filter
        (fun p => decide (p.2 < (chunks.length : Int)))).map
      (fun p => { text := pyGet chunks p.2, file := d.1, score := p.1 })

/-- `all_relevant` just before the global sort: the per-document hit lists
concatenated in document order. -/
def retrieval_pool (docs : List TargetDoc) (q : Vec) (k : Nat) : List Hit :=
  (docs.map (doc_hits q k)).flatten

/-- The documents skipped with a warning (their `load_vector_store` raised). -/
def skipped_docs (docs : List TargetDoc) : List String :=
  docs.filterMap (fun d => if loadOk d then none else some d.1)

/-- modules/ask_paper.py `main`, retrieval section: per-document search inside
a per-document try/except (failures are warned about and skipped), then
`all_relevant.sort(key=lambda x: x['score'])` ascending and truncation
`[:num_chunks]` to the requested k.  Returns (top hits, skipped documents). -/
def ask_paper_retrieve (docs : List TargetDoc) (q : Vec) (k : Nat) :
    List Hit × List String :=
  ((List.insertionSort hitLe (retrieval_pool docs q k)).take k, skipped_docs docs)

/-- Spec section 8 example document A: one chunk whose vector sits at L2
distance 1/10 (squared 1/100) from the example query. -/
def exDocA : TargetDoc := ("A", Except.ok ([[1/10]], ["chunk A"]))

/-- Spec section 8 example document B: one chunk at L2 distance 1/20
(squared 1/400) from the example query. -/
def exDocB : TargetDoc := ("B", Except.ok ([[1/20]], ["chunk B"]))

/-- The example query embedding. -/
def exQuery : Vec := [0]

/-- The hit document A contributes for `exQuery`. -/
def exHitA : Hit := ⟨"chunk A", "A", 1/100⟩

/-- The hit document B contributes for `exQuery`. -/
def exHitB : Hit := ⟨"chunk B", "B", 1/400⟩

/-- An underlying model that reports how many strings it was handed: used to
observe whether `get_embeddings` filters its input. -/
def obsEncoder : Encoder := fun ts => Except.ok [[(ts.length : ℚ)]]

/-- An underlying model whose every call raises. -/
def failEncoder : Encoder := fun _ => Except.error ()

/-- An underlying model that returns no vectors. -/
def emptyEncoder : Encoder := fun _ => Except.ok []

/-- A dot-product similarity kernel for concrete instances. -/
def dotSim (x y : Vec) : ℚ := ((x.zip y).map (fun p => p.1 * p.2)).sum

end Capstone

namespace Capstone

theorem get_embeddings_inr (encode : Encoder) (l : List String) :
    get_embeddings encode (Sum.inr l) = encode l := rfl

theorem get_embeddings_inl (encode : Encoder) (s : String) :
    get_embeddings encode (Sum.inl s) = encode [s] := rfl

theorem filtered_chunks_nil_of_all_ws (chunks : List String)
    (h : ∀ c ∈ chunks, pyStrip c = "") : filtered_chunks chunks = [] := by
  refine List.filter_eq_nil_iff.mpr ?_
  intro c hc
  simp [h c hc]

/-- C4: the user-scoped helpers aside, `load_vector_store` resolves the index
artifact and the source document of every retrieval in the shared global
directories, with no user context: for the concrete file `a.pdf` the resolved
index path is `vector_db/a.pdf.faiss`, which lies in the shared directory and
not inside authenticated user 1's namespace `vector_db/user_1` (and likewise
the document path `uploads/a.pdf` is outside `uploads/user_1`). -/
theorem claim4_shared_path_divergence :
    vector_store_index_path "a.pdf" = ["vector_db", "a.pdf.faiss"] ∧
    get_user_vector_db_dir (some 1) = ["vector_db", "user_1"] ∧
    ¬ dirWithin (get_user_vector_db_dir (some 1)) (vector_store_index_path "a.pdf") ∧
    dirWithin vectorDbDir (vector_store_index_path "a.pdf") ∧
    vector_store_document_path "a.pdf" = ["uploads", "a.pdf"] ∧
    get_user_upload_dir (some 1) = ["uploads", "user_1"] ∧
    ¬ dirWithin (get_user_upload_dir (some 1)) (vector_store_document_path "a.pdf") := by
  refine ⟨by decide, by decide, ?_, ⟨["a.pdf.faiss"], by decide⟩, by decide, by decide, ?_⟩
  · rintro ⟨t, ht⟩
    rw [show get_user_vector_db_dir (some 1) = ["vector_db", "user_1"] from by decide] at ht
    rw [show vector_store_index_path "a.pdf" = ["vector_db", "a.pdf.faiss"] from by decide] at ht
    simp only [List.cons_append, List.cons.injEq] at ht
    exact absurd ht.2.1 (by decide)
  · rintro ⟨t, ht⟩
    rw [show get_user_upload_dir (some 1) = ["uploads", "user_1"] from by decide] at ht
    rw [show vector_store_document_path "a.pdf" = ["uploads", "a.pdf"] from by decide] at ht
    simp only [List.cons_append, List.cons.injEq] at ht
    exact absurd ht.2.1 (by decide)

/-- C10: when every chunk is empty or whitespace-only, or when the embedding
call for the filtered chunks returns no vectors, `create_vector_store` returns
normally (`Except.ok`) and writes no index artifact (`none`). -/
theorem claim10_skip_empty (encode : Encoder) (chunks : List String) (name : String) :
    ((∀ c ∈ chunks, pyStrip c = "") →
      create_vector_store encode chunks name = Except.ok none) ∧
    (encode (filtered_chunks chunks) = Except.ok [] →
      create_vector_store encode chunks name = Except.ok none) := by
  constructor
  · intro h
    unfold create_vector_store
    rw [filtered_chunks_nil_of_all_ws chunks h]
    rfl
  · intro h
    unfold create_vector_store
    by_cases hfc : filtered_chunks chunks = []
    · simp [hfc]
    · rw [if_neg hfc, get_embeddings_inr, h]
      rfl

/-- C10 witness: a chunk list of one whitespace-only and one empty chunk, and
separately a model returning no vectors, both yield a normal return with no
artifact written. -/
theorem claim10_witness :
    create_vector_store obsEncoder [" ", ""] "paper.pdf" = Except.ok none ∧
    create_vector_store emptyEncoder ["hello world"] "paper.pdf" = Except.ok none :=
  ⟨(claim10_skip_empty obsEncoder [" ", ""] "paper.pdf").1 (by decide),
   (claim10_skip_empty emptyEncoder ["hello world"] "paper.pdf").2 rfl⟩

/-- C2 counterexample: on the whitespace-only input `[" "]`, `get_embeddings`
passes the entry to the underlying model unfiltered — a model that reports its
batch size observes one string — and returns that model's non-empty answer,
whereas the gateway the claim describes would return `[]` without invoking the
model at all. -/
theorem claim2_counterexample :
    get_embeddings obsEncoder (Sum.inr [" "]) = Except.ok [[(1 : ℚ)]] ∧
    embed_gateway_spec obsEncoder [" "] = [] ∧
    Except.ok [[(1 : ℚ)]] ≠ (Except.ok [] : Except Unit (List Vec)) := by
  refine ⟨by norm_num [get_embeddings, obsEncoder], ?_, by simp⟩
  have h : List.filter (fun t => !(pyStrip t == "")) [" "] = [] := by decide
  simp [embed_gateway_spec, h]

/-- C2 amended: `get_embeddings` passes its input through to the model without
any filtering; the empty/whitespace filtering — and the return-before-embedding
when nothing survives the filter — happen in the ingestion caller
`create_vector_store`: the filtered chunk list contains no empty or
whitespace-only entry, and when every chunk is whitespace-only the function
returns (writing nothing) with the same result for every underlying model,
i.e. without depending on the model at all. -/
theorem claim2_amended (encode encode2 : Encoder) (chunks : List String)
    (name : String) :
    (∀ l, get_embeddings encode (Sum.inr l) = encode l) ∧
    (∀ c ∈ filtered_chunks chunks, ¬(c = "") ∧ ¬(pyStrip c = "")) ∧
    ((∀ c ∈ chunks, pyStrip c = "") →
      create_vector_store encode chunks name = Except.ok none ∧
      create_vector_store encode chunks name = create_vector_store encode2 chunks name) := by
  refine ⟨fun l => rfl, ?_, ?_⟩
  · intro c hc
    have := List.of_mem_filter hc
    simp only [Bool.and_eq_true, Bool.not_eq_true', beq_eq_false_iff_ne, ne_eq] at this
    exact this
  · intro h
    have h1 := (claim10_skip_empty encode chunks name).1 h
    have h2 := (claim10_skip_empty encode2 chunks name).1 h
    exact ⟨h1, h1.trans h2.symm⟩

/-- C2 amended witness: with all chunks whitespace-only, ingestion returns
normally without writing, identically for two different models. -/
theorem claim2_amended_witness :
    create_vector_store obsEncoder ["", "  "] "x.txt" = Except.ok none ∧
    create_vector_store obsEncoder ["", "  "] "x.txt" =
      create_vector_store failEncoder ["", "  "] "x.txt" :=
  (claim2_amended obsEncoder failEncoder ["", "  "] "x.txt").2.2 (by decide)

/-- C3 counterexample: when the underlying model raises, `get_embeddings`
propagates the exception to its caller (there is no try/except in it), rather
than returning the empty result the claim describes; the spec-modelled gateway
returns `[]` on the same input. -/
theorem claim3_counterexample :
    get_embeddings failEncoder (Sum.inr ["some text"]) = Except.error () ∧
    embed_gateway_spec failEncoder ["some text"] = [] ∧
    (Except.error () : Except Unit (List Vec)) ≠ Except.ok [] := by
  refine ⟨rfl, ?_, by simp⟩
  have h : List.filter (fun t => !(pyStrip t == "")) ["some text"] = ["some text"] := by decide
  simp [embed_gateway_spec, h, failEncoder]

/-- C3 amended: `get_embeddings` itself raises on underlying-model failure
(the exception passes through unchanged, for both the single-string and the
batch form); the graceful degradation happens one level up — its caller
`calculate_similarity` catches the exception and returns 0. -/
theorem claim3_amended (encode : Encoder) (sim : Vec → Vec → ℚ)
    (s t1 t2 : String) (l : List String)
    (h : ∀ ts, encode ts = Except.error ()) :
    get_embeddings encode (Sum.inr l) = Except.error () ∧
    get_embeddings encode (Sum.inl s) = Except.error () ∧
    calculate_similarity encode sim t1 t2 = 0 := by
  refine ⟨h l, h [s], ?_⟩
  unfold calculate_similarity
  rw [get_embeddings_inr, get_embeddings_inr, h, h]

/-- C3 amended witness: a model whose every call raises makes `get_embeddings`
raise and `calculate_similarity` return 0. -/
theorem claim3_amended_witness :
    get_embeddings failEncoder (Sum.inr ["a"]) = Except.error () ∧
    calculate_similarity failEncoder dotSim "a" "b" = 0 :=
  ⟨(claim3_amended failEncoder dotSim "s" "a" "b" ["a"] (fun _ => rfl)).1,
   (claim3_amended failEncoder dotSim "s" "a" "b" ["a"] (fun _ => rfl)).2.2⟩


/-- The concrete encoder for the severity boundary instance: the original
sentence embeds to `[9/10]`, anything else to `[1]`, so the single best-match
dot-product similarity is exactly 9/10. -/
def boundaryEncoder : Encoder := fun ts =>
  Except.ok (ts.map (fun s => if s == "The original sentence." then [9/10] else [1]))

/-- C5 counterexample: a sentence-level run whose best-match similarity is
exactly 0.90 is labeled "High", not "Critical" as the claim's inclusive
boundary requires — the code's ladder uses strict comparisons. -/
theorem claim5_counterexample :
    ((sla_results boundaryEncoder dotSim ["The original sentence."]
        ["The checked sentence."] (7/10)).getD 0 noMatch).similarity = 9/10 ∧
    ((sla_results boundaryEncoder dotSim ["The original sentence."]
        ["The checked sentence."] (7/10)).getD 0 noMatch).severity = "High" ∧
    ¬ ((sla_results boundaryEncoder dotSim ["The original sentence."]
        ["The checked sentence."] (7/10)).getD 0 noMatch).severity = "Critical" := by
  have h : sla_results boundaryEncoder dotSim ["The original sentence."]
      ["The checked sentence."] (7/10) =
      [{ checked_sent := "The checked sentence.", original_sent := "The original sentence.",
         similarity := 9/10, is_plagiarized := true, severity := "High", color := "warning" }] := by
    have hne : ¬("The checked sentence." = "The original sentence.") := by decide
    norm_num [sla_results, sentence_level_analysis, get_embeddings, boundaryEncoder, dotSim,
      severity_ladder, npMax, npArgmax, List.range_succ, List.indexOf, List.findIdx,
      List.findIdx.go, hne]
  rw [h]
  refine ⟨rfl, rfl, by decide⟩

/-- C5 amended: the severity ladder uses strict comparisons: strictly above
0.90 Critical, strictly above 0.80 High, strictly above the configurable
threshold Medium, otherwise Low.  With threshold 0.70: 0.95 is Critical, 0.85
High, 0.75 Medium, 0.50 Low, while exactly at the boundaries 0.90 is High,
0.80 Medium and 0.70 Low. -/
theorem claim5_amended (s t : ℚ) :
    (severity_label s t = "Critical" ↔ 9/10 < s) ∧
    (severity_label s t = "High" ↔ s ≤ 9/10 ∧ 8/10 < s) ∧
    (severity_label s t = "Medium" ↔ s ≤ 8/10 ∧ t < s) ∧
    (severity_label s t = "Low" ↔ s ≤ 8/10 ∧ s ≤ t) ∧
    severity_label (19/20) t = "Critical" ∧
    severity_label (17/20) t = "High" ∧
    severity_label (3/4) (7/10) = "Medium" ∧
    severity_label (1/2) (7/10) = "Low" ∧
    severity_label (9/10) t = "High" ∧
    severity_label (8/10) (7/10) = "Medium" ∧
    severity_label (7/10) (7/10) = "Low" := by
  have hl : ∀ x u : ℚ, severity_label x u =
      if 9/10 < x then "Critical"
      else if 8/10 < x then "High"
      else if u < x then "Medium" else "Low" := by
    intro x u
    unfold severity_label severity_ladder
    split_ifs <;> rfl
  refine ⟨?_, ?_, ?_, ?_, ?_⟩
  · rw [hl]; split_ifs with h1 h2 h3 <;> simp_all <;> intros <;> linarith
  · rw [hl]; split_ifs with h1 h2 h3 <;> simp_all <;> intros <;> linarith
  · rw [hl]; split_ifs with h1 h2 h3 <;> simp_all <;> intros <;> linarith
  · rw [hl]; split_ifs with h1 h2 h3 <;> simp_all <;> intros <;> linarith
  refine ⟨?_, ?_, ?_, ?_, ?_, ?_, ?_⟩ <;> rw [hl] <;> norm_num

/-- C5 amended witness: the general strict ladder instantiated at the 0.90
boundary with threshold 0.70. -/
theorem claim5_amended_witness : severity_label (9/10) (7/10) = "High" := by
  have h := claim5_amended (9/10) (7/10)
  exact h.2.2.2.2.2.2.2.2.1


/-- A file with an unsupported extension whose every reader call would raise,
yet whose raw bytes exist: no branch of `load_document` matches it. -/
def pngFile : RawFile :=
  { ext := ".png", stem := "image",
    pdfplumberText := Except.error (), fitzDoc := Except.error (),
    fitzMeta := Except.error (), ocrText := Except.error (),
    docxParas := Except.error (), rawText := Except.ok "raw bytes" }

/-- A .docx file whose reader raises (corrupt/unreadable content). -/
def corruptDocx : RawFile :=
  { ext := ".docx", stem := "paper",
    pdfplumberText := Except.error (), fitzDoc := Except.error (),
    fitzMeta := Except.error (), ocrText := Except.error (),
    docxParas := Except.error (), rawText := Except.error () }

/-- C7 counterexample: for a file with the unsupported extension `.png`,
`load_document` does not raise a format error — it returns normally with empty
text and empty metadata (there is no else branch raising for unmatched
extensions); what the upload handler then does is crash on the unrelated
uncaught `TypeError` from `create_vector_store(..., store_dir=...)`, so no
`DocumentFormatError` is raised or surfaced for the unsupported file. -/
theorem claim7_counterexample :
    load_document pngFile = Except.ok ("", []) ∧
    process_upload pngFile = Except.error () := by
  constructor <;> rfl

/-- C7 amended: for supported formats, a reader failure (corrupt/unreadable
content) makes `load_document` raise `ValueError("Unsupported or corrupted
file.")` — the code's `DocumentFormatError` — and the upload caller catches
exactly that and surfaces an error message without crashing; but a file with
an unsupported extension instead returns normally with empty text and empty
metadata, and on every successful load the handler then crashes on the
uncaught `TypeError` of the `store_dir=` keyword argument that
`create_vector_store` does not accept. -/
theorem claim7_amended (f : RawFile) :
    (f.ext = ".pdf" → f.pdfplumberText = Except.error () →
      load_document f = Except.error "Unsupported or corrupted file.") ∧
    (f.ext = ".docx" → f.docxParas = Except.error () →
      load_document f = Except.error "Unsupported or corrupted file.") ∧
    ((f.ext = ".txt" ∨ f.ext = ".tex") → f.rawText = Except.error () →
      load_document f = Except.error "Unsupported or corrupted file.") ∧
    (¬(f.ext = ".pdf" ∨ f.ext = ".docx" ∨ f.ext = ".txt" ∨ f.ext = ".tex") →
      load_document f = Except.ok ("", [])) ∧
    (∀ e, load_document f = Except.error e →
      process_upload f = Except.ok ("Error: " ++ e)) ∧
    (∀ r, load_document f = Except.ok r → process_upload f = Except.error ()) := by
  refine ⟨?_, ?_, ?_, ?_, ?_, ?_⟩
  · intro h1 h2
    simp [load_document, h1, h2]
  · intro h1 h2
    have hne : f.ext ≠ ".pdf" := by rw [h1]; decide
    simp [load_document, h1, h2, hne]
  · intro h1 h2
    have hne : f.ext ≠ ".pdf" := by rcases h1 with h | h <;> rw [h] <;> decide
    have hne2 : f.ext ≠ ".docx" := by rcases h1 with h | h <;> rw [h] <;> decide
    simp [load_document, h1, h2, hne, hne2]
  · intro h
    push_neg at h
    obtain ⟨h1, h2, h3, h4⟩ := h
    simp [load_document, h1, h2, h3, h4]
  · intro e he
    simp [process_upload, he]
  · intro r hr
    simp [process_upload, hr]

/-- C7 amended witness: a corrupt .docx raises the format error and the upload
caller renders it as a message, while the unsupported-extension png load
returns normally and the handler crashes downstream. -/
theorem claim7_amended_witness :
    load_document corruptDocx = Except.error "Unsupported or corrupted file." ∧
    process_upload corruptDocx = Except.ok "Error: Unsupported or corrupted file." ∧
    process_upload pngFile = Except.error () := by
  have h := claim7_amended corruptDocx
  have h2 := claim7_amended pngFile
  exact ⟨h.2.1 rfl rfl,
    h.2.2.2.2.1 "Unsupported or corrupted file." (h.2.1 rfl rfl),
    h2.2.2.2.2.2 ("", []) rfl⟩

/-- C8: the PDF extraction ladder.  If pdfplumber yields non-whitespace text,
that text is returned and neither the PyMuPDF text fallback nor OCR can affect
the result (quantifying over arbitrary outcomes for them); the PyMuPDF
fallback's text is returned only when pdfplumber's was empty/whitespace, with
OCR still irrelevant; OCR text is used only when both earlier stages produced
no usable text (both with a successful second open and with the second open
raising). -/
theorem claim8_pdf_ladder (f : RawFile) (hpdf : f.ext = ".pdf") :
    (∀ t0, f.pdfplumberText = Except.ok t0 → ¬(pyStrip t0 = "") →
      ∀ fd oc, load_document { f with fitzDoc := fd, ocrText := oc } =
        Except.ok (t0, metaOrEmpty f.fitzMeta)) ∧
    (∀ t0 t1 m1, f.pdfplumberText = Except.ok t0 → pyStrip t0 = "" →
      f.fitzDoc = Except.ok (t1, m1) → ¬(pyStrip t1 = "") →
      ∀ oc, load_document { f with ocrText := oc } = Except.ok (t1, m1)) ∧
    (∀ t0 t1 m1 o, f.pdfplumberText = Except.ok t0 → pyStrip t0 = "" →
      f.fitzDoc = Except.ok (t1, m1) → pyStrip t1 = "" →
      f.ocrText = Except.ok o → ¬(pyStrip o = "") →
      load_document f = Except.ok (o, m1)) ∧
    (∀ t0 o, f.pdfplumberText = Except.ok t0 → pyStrip t0 = "" →
      f.fitzDoc = Except.error () → f.ocrText = Except.ok o → ¬(pyStrip o = "") →
      load_document f = Except.ok (o, [])) := by
  refine ⟨?_, ?_, ?_, ?_⟩
  · intro t0 h0 hne fd oc
    simp [load_document, hpdf, h0, hne]
  · intro t0 t1 m1 h0 hws h1 hne oc
    simp [load_document, hpdf, h0, hws, h1, hne]
  · intro t0 t1 m1 o h0 hws h1 hws1 ho hne
    simp [load_document, hpdf, h0, hws, h1, hws1, ho, hne]
  · intro t0 o h0 hws h1 ho hne
    have : pyStrip "" = "" := by decide
    simp [load_document, hpdf, h0, hws, h1, ho, hne, this]

/-- An image-only (scanned) PDF: pdfplumber sees only whitespace, the PyMuPDF
text layer is empty too, OCR recovers the text. -/
def scannedPdf : RawFile :=
  { ext := ".pdf", stem := "scan",
    pdfplumberText := Except.ok "\n\n", fitzDoc := Except.ok ("", [("title", "Scan")]),
    fitzMeta := Except.ok [("title", "Scan")], ocrText := Except.ok "OCR recovered text",
    docxParas := Except.error (), rawText := Except.error () }

/-- C8 witness: the ladder applied to a text PDF (first stage wins regardless
of the other readers) and to a scanned PDF (OCR text is returned). -/
theorem claim8_witness :
    load_document { scannedPdf with pdfplumberText := Except.ok "Body text" } =
      Except.ok ("Body text", [("title", "Scan")]) ∧
    load_document scannedPdf = Except.ok ("OCR recovered text", [("title", "Scan")]) := by
  constructor
  · exact (claim8_pdf_ladder { scannedPdf with pdfplumberText := Except.ok "Body text" }
      rfl).1 "Body text" rfl (by decide) scannedPdf.fitzDoc scannedPdf.ocrText
  · exact (claim8_pdf_ladder scannedPdf rfl).2.2.1 "\n\n" "" [("title", "Scan")]
      "OCR recovered text" rfl (by decide) rfl (by decide) rfl (by decide)


theorem doc_hits_of_load_failed (q : Vec) (k : Nat) (d : TargetDoc)
    (h : loadOk d = false) : doc_hits q k d = [] := by
  rcases d with ⟨name, res⟩
  cases res with
  | ok p => simp [loadOk] at h
  | error e => rfl

theorem retrieval_pool_cons (d : TargetDoc) (ds : List TargetDoc) (q : Vec) (k : Nat) :
    retrieval_pool (d :: ds) q k = doc_hits q k d ++ retrieval_pool ds q k := by
  simp [retrieval_pool]

theorem retrieval_pool_filter (docs : List TargetDoc) (q : Vec) (k : Nat) :
    retrieval_pool (docs.filter loadOk) q k = retrieval_pool docs q k := by
  induction docs with
  | nil => rfl
  | cons d ds ih =>
    by_cases h : loadOk d
    · rw [List.filter_cons_of_pos h, retrieval_pool_cons, retrieval_pool_cons, ih]
    · rw [List.filter_cons_of_neg (by simpa using h), retrieval_pool_cons, ih,
        doc_hits_of_load_failed q k d (by simpa using h), List.nil_append]

theorem skipped_docs_length (docs : List TargetDoc) :
    (skipped_docs docs).length + (docs.filter loadOk).length = docs.length := by
  induction docs with
  | nil => rfl
  | cons d ds ih =>
    by_cases h : loadOk d <;>
      simp [skipped_docs, List.filterMap_cons, List.filter_cons, h] at ih ⊢ <;>
      omega

/-- C1: retrieval merges all per-document hits into one pool, sorts the pool
globally ascending by (squared) L2 distance, and truncates to the requested k:
the returned list is a sorted smallest-k selection of the pool (every returned
hit scores no worse than every pool member left out).  In particular for two
single-chunk documents A at distance 1/10 and B at distance 1/20 from the
query, retrieval with k = 1 returns B's chunk. -/
theorem claim1_global_rerank (docs : List TargetDoc) (q : Vec) (k : Nat) :
    (∃ rest : List Hit,
      List.Perm ((ask_paper_retrieve docs q k).1 ++ rest) (retrieval_pool docs q k) ∧
      ((ask_paper_retrieve docs q k).1).Pairwise hitLe ∧
      (∀ a ∈ (ask_paper_retrieve docs q k).1, ∀ b ∈ rest, a.score ≤ b.score) ∧
      (ask_paper_retrieve docs q k).1.length = min k (retrieval_pool docs q k).length) ∧
    ask_paper_retrieve [exDocA, exDocB] exQuery 1 = ([exHitB], []) := by
  constructor
  · refine ⟨(List.insertionSort hitLe (retrieval_pool docs q k)).drop k, ?_, ?_, ?_, ?_⟩
    · show List.Perm ((List.insertionSort hitLe (retrieval_pool docs q k)).take k ++ _) _
      rw [List.take_append_drop]
      exact List.perm_insertionSort hitLe _
    · exact List.Pairwise.sublist (List.take_sublist _ _)
        (List.sorted_insertionSort hitLe _)
    · intro a ha b hb
      have hs := List.sorted_insertionSort hitLe (retrieval_pool docs q k)
      rw [← List.take_append_drop k
        (List.insertionSort hitLe (retrieval_pool docs q k))] at hs
      exact (List.pairwise_append.mp hs).2.2 a ha b hb
    · show (List.take k _).length = _
      rw [List.length_take, List.length_insertionSort]
  · norm_num [ask_paper_retrieve, retrieval_pool, doc_hits, index_search, sqDist,
      exDocA, exDocB, exQuery, exHitA, exHitB, hitLe, pairLe, skipped_docs, loadOk,
      List.enum, List.enumFrom, faissPadDist, pyGet, List.replicate]

/-- C1 witness: the concrete two-document instance — B's globally nearer chunk
ranks first with k = 1. -/
theorem claim1_witness : ask_paper_retrieve [exDocA, exDocB] exQuery 1 = ([exHitB], []) :=
  (claim1_global_rerank [] [] 0).2

/-- Document with an intact index for the partial-failure instance. -/
def exDoc3A : TargetDoc := ("a.pdf", Except.ok ([[0]], ["alpha chunk"]))

/-- Document whose index artifact is missing/corrupt: loading raised. -/
def exDoc3Bad : TargetDoc := ("bad.pdf", Except.error ())

/-- Second intact document. -/
def exDoc3C : TargetDoc := ("c.pdf", Except.ok ([[1]], ["gamma chunk"]))

/-- Query embedding for the partial-failure instance. -/
def exQuery3 : Vec := [0]

/-- The hit contributed by `exDoc3A`. -/
def exHit3A : Hit := ⟨"alpha chunk", "a.pdf", 0⟩

/-- The hit contributed by `exDoc3C`. -/
def exHit3C : Hit := ⟨"gamma chunk", "c.pdf", 1⟩

/-- A padding hit: with k = 5 against `exDoc3A`'s one-chunk index, FAISS pads
the remaining slots with label -1 at `FLT_MAX` distance; the code's
`idx < len(chunks)` guard passes -1, and Python's `chunks[-1]` selects the
last (only) chunk. -/
def exHit3Pad : Hit := ⟨"alpha chunk", "a.pdf", faissPadDist⟩

/-- C9: documents whose index fails to load are skipped — the results equal
those computed from the successfully loaded documents alone, the number of
skipped names plus the number of loaded documents is the number of targets,
and on the concrete 3-target instance with one missing index the call returns
hits only from the two surviving documents — their nearest chunks first,
followed by FAISS's k>ntotal padding duplicates of the last chunk at FLT_MAX
distance, which the `idx < len(chunks)` guard lets through — and reports
exactly the one skipped name. -/
theorem claim9_partial_failure (docs : List TargetDoc) (q : Vec) (k : Nat) :
    (ask_paper_retrieve docs q k).1 = (ask_paper_retrieve (docs.filter loadOk) q k).1 ∧
    (ask_paper_retrieve docs q k).2 = skipped_docs docs ∧
    ((ask_paper_retrieve docs q k).2).length + (docs.filter loadOk).length = docs.length ∧
    ask_paper_retrieve [exDoc3A, exDoc3Bad, exDoc3C] exQuery3 5 =
      ([exHit3A, exHit3C, exHit3Pad, exHit3Pad, exHit3Pad], ["bad.pdf"]) := by
  refine ⟨?_, rfl, skipped_docs_length docs, ?_⟩
  · show (List.insertionSort hitLe (retrieval_pool docs q k)).take k = _
    rw [show (ask_paper_retrieve (docs.filter loadOk) q k).1 =
      (List.insertionSort hitLe (retrieval_pool (docs.filter loadOk) q k)).take k from rfl,
      retrieval_pool_filter]
  · norm_num [ask_paper_retrieve, retrieval_pool, doc_hits, index_search, sqDist,
      exDoc3A, exDoc3Bad, exDoc3C, exQuery3, exHit3A, exHit3C, exHit3Pad, hitLe,
      pairLe, skipped_docs, loadOk, List.enum, List.enumFrom, List.filterMap_cons,
      faissPadDist, pyGet, List.replicate]

/-- C9 witness: the concrete 3-target instance, extracted from the theorem. -/
theorem claim9_witness :
    ask_paper_retrieve [exDoc3A, exDoc3Bad, exDoc3C] exQuery3 5 =
      ([exHit3A, exHit3C, exHit3Pad, exHit3Pad, exHit3Pad], ["bad.pdf"]) :=
  (claim9_partial_failure [] [] 0).2.2.2


theorem le_foldl_max (x : ℚ) (xs : List ℚ) : ∀ y ∈ x :: xs, y ≤ xs.foldl max x := by
  induction xs generalizing x with
  | nil =>
    intro y hy
    simp only [List.mem_singleton] at hy
    simp [hy]
  | cons z zs ih =>
    intro y hy
    simp only [List.foldl_cons]
    rcases List.mem_cons.mp hy with rfl | hy2
    · exact le_trans (le_max_left y z) (ih (max y z) _ (List.mem_cons_self _ _))
    · rcases List.mem_cons.mp hy2 with rfl | hy3
      · exact le_trans (le_max_right x y) (ih (max x y) _ (List.mem_cons_self _ _))
      · exact ih (max x z) y (List.mem_cons_of_mem _ hy3)

theorem foldl_max_mem (x : ℚ) (xs : List ℚ) : xs.foldl max x ∈ x :: xs := by
  induction xs generalizing x with
  | nil => simp
  | cons z zs ih =>
    simp only [List.foldl_cons]
    rcases List.mem_cons.mp (ih (max x z)) with h | h
    · rcases max_choice x z with h2 | h2
      · rw [h, h2]
        exact List.mem_cons_self _ _
      · rw [h, h2]
        exact List.mem_cons_of_mem _ (List.mem_cons_self _ _)
    · exact List.mem_cons_of_mem _ (List.mem_cons_of_mem _ h)

theorem le_npMax (l : List ℚ) : ∀ y ∈ l, y ≤ npMax l := by
  cases l with
  | nil => intro y hy; cases hy
  | cons x xs => exact le_foldl_max x xs

theorem npMax_mem (l : List ℚ) (h : ¬l = []) : npMax l ∈ l := by
  cases l with
  | nil => exact absurd rfl h
  | cons x xs => exact foldl_max_mem x xs

theorem npArgmax_lt (l : List ℚ) (h : ¬l = []) : npArgmax l < l.length :=
  List.indexOf_lt_length.mpr (npMax_mem l h)

theorem getD_map_range {α : Type} (n i : Nat) (f : Nat → α) (d : α) (h : i < n) :
    ((List.range n).map f).getD i d = f i := by
  rw [List.getD_eq_getElem?_getD, List.getElem?_map, List.getElem?_range h]
  rfl

/-- The concrete encoder for the shared-best-match instance: both checked
sentences' vectors point mostly along the first original sentence's vector. -/
def exEncoder : Encoder := fun ts =>
  Except.ok (ts.map (fun s =>
    if s == "O one." then [1, 0]
    else if s == "O two." then [0, 1]
    else if s == "C one." then [3, 1]
    else [2, 0]))

/-- C6: every checked sentence is paired with exactly one original sentence —
the results list has one entry per checked sentence; entry i's similarity is
the maximum of the similarities of checked sentence i against all original
sentences (an attained maximum dominating every column), and its matched
original sentence is the one at the first index attaining the maximum, chosen
independently for each i.  The concrete instance shows two different checked
sentences both matched to the same original sentence (an asymmetric nearest
match, not a one-to-one assignment). -/
theorem claim6_asymmetric_best_match (encode : Encoder) (sim : Vec → Vec → ℚ)
    (origSents checkSents : List String) (t : ℚ) (origEmbs checkEmbs : List Vec)
    (ho : encode origSents = Except.ok origEmbs)
    (hc : encode checkSents = Except.ok checkEmbs)
    (hos : ¬origSents = []) (hcs : ¬checkSents = [])
    (hoe : ¬origEmbs = []) (hce : ¬checkEmbs = [])
    (hlen : checkEmbs.length = checkSents.length)
    (holen : origEmbs.length = origSents.length) :
    (sla_results encode sim origSents checkSents t).length = checkSents.length ∧
    (∀ i, i < checkSents.length →
      ((sla_results encode sim origSents checkSents t).getD i noMatch).similarity =
        npMax (origEmbs.map (sim (checkEmbs.getD i []))) ∧
      (∀ s ∈ origEmbs.map (sim (checkEmbs.getD i [])),
        s ≤ npMax (origEmbs.map (sim (checkEmbs.getD i [])))) ∧
      npMax (origEmbs.map (sim (checkEmbs.getD i []))) ∈
        origEmbs.map (sim (checkEmbs.getD i [])) ∧
      npArgmax (origEmbs.map (sim (checkEmbs.getD i []))) < origSents.length ∧
      ((sla_results encode sim origSents checkSents t).getD i noMatch).original_sent =
        origSents.getD (npArgmax (origEmbs.map (sim (checkEmbs.getD i [])))) "" ∧
      ((sla_results encode sim origSents checkSents t).getD i noMatch).checked_sent =
        checkSents.getD i "") ∧
    ((sla_results exEncoder dotSim ["O one.", "O two."] ["C one.", "C two."]
        (7/10)).getD 0 noMatch).original_sent = "O one." ∧
    ((sla_results exEncoder dotSim ["O one.", "O two."] ["C one.", "C two."]
        (7/10)).getD 1 noMatch).original_sent = "O one." ∧
    (sla_results exEncoder dotSim ["O one.", "O two."] ["C one.", "C two."]
        (7/10)).length = 2 := by
  have hres : sla_results encode sim origSents checkSents t =
      (List.range checkEmbs.length).map (fun i =>
        { checked_sent := checkSents.getD i ""
          original_sent :=
            origSents.getD (npArgmax (origEmbs.map (sim (checkEmbs.getD i [])))) ""
          similarity := npMax (origEmbs.map (sim (checkEmbs.getD i [])))
          is_plagiarized := decide (npMax (origEmbs.map (sim (checkEmbs.getD i []))) > t)
          severity :=
            (severity_ladder (npMax (origEmbs.map (sim (checkEmbs.getD i [])))) t).1
          color :=
            (severity_ladder (npMax (origEmbs.map (sim (checkEmbs.getD i [])))) t).2 }) := by
    unfold sla_results sentence_level_analysis
    rw [get_embeddings_inr, get_embeddings_inr, ho, hc,
      if_neg (not_or.mpr ⟨hos, hcs⟩)]
    dsimp only
    rw [if_neg (not_or.mpr ⟨hoe, hce⟩)]
  refine ⟨?_, ?_, ?_, ?_, ?_⟩
  · rw [hres]
    simp [hlen]
  · intro i hi
    have hi2 : i < checkEmbs.length := by rw [hlen]; exact hi
    rw [hres, getD_map_range _ _ _ _ hi2]
    refine ⟨rfl, le_npMax _, ?_, ?_, rfl, rfl⟩
    · exact npMax_mem _ (fun h => hoe (by simpa using h))
    · have := npArgmax_lt (origEmbs.map (sim (checkEmbs.getD i [])))
        (fun h => hoe (by simpa using h))
      rwa [List.length_map, holen] at this
  all_goals
    have h1 : ¬("O two." = "O one.") := by decide
    have h2 : ¬("C one." = "O one.") := by decide
    have h3 : ¬("C one." = "O two.") := by decide
    have h4 : ¬("C two." = "O one.") := by decide
    have h5 : ¬("C two." = "O two.") := by decide
    have h6 : ¬("C two." = "C one.") := by decide
    norm_num [sla_results, sentence_level_analysis, get_embeddings, exEncoder, dotSim,
      npMax, npArgmax, severity_ladder, List.range_succ, List.indexOf, List.findIdx,
      List.findIdx.go, h1, h2, h3, h4, h5, h6, Bool.cond_eq_ite, beq_iff_eq, max_def,
      List.getD]
  all_goals simp

/-- C6 witness: the general best-match theorem instantiated on the concrete
two-by-two instance; both checked sentences receive a (shared) match. -/
theorem claim6_witness :
    (sla_results exEncoder dotSim ["O one.", "O two."] ["C one.", "C two."]
        (7/10)).length = 2 :=
  (claim6_asymmetric_best_match exEncoder dotSim ["O one.", "O two."]
    ["C one.", "C two."] (7/10) [[1, 0], [0, 1]] [[3, 1], [2, 0]]
    rfl rfl (by decide) (by decide) (by decide) (by decide)
    rfl rfl).2.2.2.2

end Capstone
